import Mathlib

/-!
Verification of the relay engine in `tcp_relay_server.py` (class
`TCPRelayServer`).  The engine's mutable fields are embedded as an explicit
state record, sockets are modelled as natural-number identifiers, and each
code region that mutates shared state between two observation points is
embedded as one atomic event of a step relation.  Callback invocations are
recorded in the state (the last published value of each callback slot);
socket closing is recorded in an append-only `closed` list.  Fallible
environment operations (`getpeername`, `sendall`) are modelled by
environment parameters: a partial peer-address map `peer : Nat → Option
String` (`none` meaning the lookup raises `OSError`) and a send-failure
predicate `Nat → Bool` (`true` meaning `sendall` raises).
-/

/-- Modes of the relay, from the `mode` strings in `tcp_relay_server.py`:
the first token governs the upstream role, the second the downstream
role. -/
inductive Mode
  | connectListen
  | listenConnect
  | connectConnect
  | listenListen
deriving DecidableEq

/-- Returns true exactly for the modes whose downstream side listens for
clients, mirroring the membership test
`self.mode in ["connect-listen", "listen-listen"]`. -/
def Mode.downstreamListen : Mode → Bool
  | .connectListen => true
  | .listenListen => true
  | _ => false

/-- Returns true exactly for the modes whose upstream side listens,
mirroring `self.mode in ["listen-connect", "listen-listen"]`. -/
def Mode.upstreamListen : Mode → Bool
  | .listenConnect => true
  | .listenListen => true
  | _ => false

/-- The mutable state of a `TCPRelayServer` instance: the fields set in
`__init__`, plus observation fields.  `closed` records every socket the
engine has closed; the `last*` fields record the argument of the most
recent invocation of each callback slot (`none` while the callback has
never been invoked); `logs` records the log lines emitted. -/
structure EngineState where
  running : Bool
  upstreamSocket : Option Nat
  downstreamSocket : Option Nat
  clientSockets : List Nat
  upstreamServerSocket : Option Nat
  clientServerSocket : Option Nat
  cleaned : Bool
  closed : List Nat
  lastUpstreamStatus : Option Bool
  lastDownstreamStatus : Option Bool
  lastClientCount : Option Nat
  lastClientList : Option (List String)
  logs : List String
deriving DecidableEq

/-- The state right after `__init__` / the reset at the top of `start()`:
`running = True`, `self._cleaned = False`, all sockets absent, `clients`
empty, no callback invoked yet. -/
def initState : EngineState :=
  { running := true
    upstreamSocket := none
    downstreamSocket := none
    clientSockets := []
    upstreamServerSocket := none
    clientServerSocket := none
    cleaned := false
    closed := []
    lastUpstreamStatus := none
    lastDownstreamStatus := none
    lastClientCount := none
    lastClientList := none
    logs := [] }

/-- Embedding of `_notify_downstream_listen_state`: under the registry
lock compute `count = len(self.client_sockets)` and the list of
peer-address strings of the members whose `getpeername` succeeds, then
invoke the client-count callback with `count`, the downstream-status
callback with `count > 0`, and the client-list callback with the list. -/
def notifyListenState (peer : Nat → Option String) (s : EngineState) : EngineState :=
  let count := s.clientSockets.length
  let infoList := s.clientSockets.filterMap peer
  { s with
    lastClientCount := some count
    lastDownstreamStatus := some (decide (0 < count))
    lastClientList := some infoList
    logs := s.logs ++ ["[DEBUG] listen-side state"] }

/-- Embedding of `_notify_downstream_connect_state`: `count` is 1 when
connected else 0; the info list holds the peer address of
`self.downstream_socket` when connected, the socket is present and the
lookup succeeds, and is empty otherwise. -/
def notifyConnectState (peer : Nat → Option String) (connected : Bool)
    (s : EngineState) : EngineState :=
  let count := if connected then 1 else 0
  let infoList :=
    if connected then
      match s.downstreamSocket with
      | some d => (peer d).toList
      | none => []
    else []
  { s with
    lastClientCount := some count
    lastDownstreamStatus := some connected
    lastClientList := some infoList
    logs := s.logs ++ ["[DEBUG] connect-side state"] }

/-- Embedding of `handle_exit`: log one line and set `running = False`;
nothing else is touched. -/
def handleExit (s : EngineState) : EngineState :=
  { s with
    running := false
    logs := s.logs ++ ["Shutting down relay server (handle_exit)..."] }

/-- Embedding of the per-buffer send loop of `relay_from_upstream`
(downstream-listen branch): iterate over the snapshot `targets`; for each
member attempt `sendall`; members whose send raises are appended to
`dead`.  Returns the list of members on which a send was attempted (in
order) and the collected `dead` list. -/
def sendLoop (targets : List Nat) (sendFails : Nat → Bool) : List Nat × List Nat :=
  targets.foldl
    (fun acc s => (acc.1 ++ [s], if sendFails s then acc.2 ++ [s] else acc.2))
    ([], [])

/-- Result of one fan-out of a non-empty buffer in `relay_from_upstream`
(lines 492-522): the members attempted, the failing members collected,
the client registry after the removals, the sockets closed, and whether
the downstream state was published. -/
structure FanoutResult where
  attempted : List Nat
  dead : List Nat
  clientsAfter : List Nat
  closedNow : List Nat
  published : Bool
deriving DecidableEq

/-- Embedding of the downstream-listen branch of `relay_from_upstream`
for one non-empty buffer: snapshot `targets = list(self.client_sockets)`
under the lock; outside the lock run the send loop; then, under the lock,
`self.client_sockets.remove(s)` (first occurrence, `ValueError` meaning
prior removal is tolerated) and `s.close()` for each dead member; publish
the downstream state only when `dead` is non-empty (`if dead:`). -/
def fanoutBuffer (clients : List Nat) (sendFails : Nat → Bool) : FanoutResult :=
  let targets := clients
  let loopOut := sendLoop targets sendFails
  let dead := loopOut.2
  { attempted := loopOut.1
    dead := dead
    clientsAfter := dead.foldl (fun cs s => cs.erase s) clients
    closedNow := dead
    published := !dead.isEmpty }

/-- Embedding of `cleanup()`: return immediately when `self._cleaned` is
already set; otherwise set the guard, shutdown-and-close every client
socket and clear the registry, close each of `upstream_socket`,
`downstream_socket`, `upstream_server_socket`, `client_server_socket`
that is present, publish the downstream snapshot through the
mode-appropriate notifier, publish upstream-disconnected, and log. -/
def cleanup (peer : Nat → Option String) (m : Mode) (s : EngineState) : EngineState :=
  if s.cleaned then s
  else
    let s1 := { s with
      cleaned := true
      closed := s.closed ++ s.clientSockets
      clientSockets := []
      logs := s.logs ++ ["Closing connections..."] }
    let s2 := { s1 with
      closed := s1.closed ++ s.upstreamSocket.toList ++ s.downstreamSocket.toList
        ++ s.upstreamServerSocket.toList ++ s.clientServerSocket.toList }
    let s3 :=
      if m.downstreamListen then notifyListenState peer s2
      else notifyConnectState peer false s2
    { s3 with
      lastUpstreamStatus := some false
      logs := s3.logs ++ ["Server shut down."] }

/-- The atomic events of the engine, one per code region that mutates the
shared state between two observation points. -/
inductive Event
  | upConnected (sock : Nat)
  | upConnectEnd
  | upConnectFatal
  | upAccepted (sock : Nat)
  | upAcceptEnd (sock : Nat)
  | clientAccepted (sock : Nat)
  | fanoutSend (sendFails : Nat → Bool)
  | p2pSendFail
  | dsConnected (sock : Nat)
  | dsConnectEnd (sock : Nat)
  | dsConnectFatal
  | upstreamClosedRead
  | stopRequest
  | doCleanup
  | bindUpstreamListener (sock : Nat)
  | bindClientListener (sock : Nat)

/-- One atomic step of the engine in mode `m` with peer-address map
`peer`: `none` when the event is not enabled in state `s`.  Each branch
is translated from the code region named in its comment. -/
def Step (peer : Nat → Option String) (m : Mode) (s : EngineState) :
    Event → Option EngineState
  -- connect_upstream: successful connect assigns upstream_socket and
  -- publishes upstream-connected (connect-upstream modes only).
  | .upConnected k =>
    if !m.upstreamListen && s.running then
      some { s with
        upstreamSocket := some k
        lastUpstreamStatus := some true
        logs := s.logs ++ ["Connected to upstream"] }
    else none
  -- connect_upstream: the finally block closes the local socket, clears
  -- upstream_socket and publishes upstream-disconnected.
  | .upConnectEnd =>
    if !m.upstreamListen then
      some { s with
        closed := s.closed ++ s.upstreamSocket.toList
        upstreamSocket := none
        lastUpstreamStatus := some false
        logs := s.logs ++ ["[DEBUG] connect_upstream: disconnected, loop end or retry"] }
    else none
  -- connect_upstream: OSError with errno EADDRINUSE while running stops
  -- the engine.
  | .upConnectFatal =>
    if !m.upstreamListen && s.running then
      some { s with
        running := false
        logs := s.logs ++ ["ERROR: upstream connect local port already in use"] }
    else none
  -- _accept_upstream_loop: a successful accept closes any previous
  -- upstream socket, assigns the new one and publishes upstream-connected.
  | .upAccepted k =>
    if m.upstreamListen && s.running then
      some { s with
        closed := s.closed ++ s.upstreamSocket.toList
        upstreamSocket := some k
        lastUpstreamStatus := some true
        logs := s.logs ++ ["Upstream connected"] }
    else none
  -- _accept_upstream_loop: the finally block clears upstream_socket when
  -- it still is the accepted socket, and publishes upstream-disconnected.
  | .upAcceptEnd k =>
    if m.upstreamListen then
      some { s with
        upstreamSocket := if s.upstreamSocket == some k then none else s.upstreamSocket
        lastUpstreamStatus := some false
        logs := s.logs ++ ["[DEBUG] upstream accept loop: upstream disconnected"] }
    else none
  -- _accept_clients_loop: append the accepted socket under the lock,
  -- then publish the listen-side downstream state.
  | .clientAccepted k =>
    if m.downstreamListen && s.running then
      some (notifyListenState peer
        { s with
          clientSockets := s.clientSockets ++ [k]
          logs := s.logs ++ ["Client connected"] })
    else none
  -- relay_from_upstream, downstream-listen branch, one non-empty buffer.
  | .fanoutSend sendFails =>
    if m.downstreamListen && s.running && s.upstreamSocket.isSome then
      let r := fanoutBuffer s.clientSockets sendFails
      let s1 := { s with
        clientSockets := r.clientsAfter
        closed := s.closed ++ r.closedNow }
      some (if r.published then notifyListenState peer s1 else s1)
    else none
  -- relay_from_upstream, downstream-connect branch: a send error closes
  -- and clears downstream_socket and publishes downstream-disconnected.
  | .p2pSendFail =>
    if !m.downstreamListen && s.running && s.downstreamSocket.isSome then
      some (notifyConnectState peer false
        { s with
          closed := s.closed ++ s.downstreamSocket.toList
          downstreamSocket := none
          logs := s.logs ++ ["Error sending to downstream"] })
    else none
  -- connect_downstream: successful connect assigns downstream_socket and
  -- publishes the connect-side downstream state (connect-downstream modes).
  | .dsConnected k =>
    if !m.downstreamListen && s.running then
      some (notifyConnectState peer true
        { s with
          downstreamSocket := some k
          logs := s.logs ++ ["Connected to downstream"] })
    else none
  -- connect_downstream: the finally block, when downstream_socket still
  -- is the local socket, closes it, clears it and publishes disconnect.
  | .dsConnectEnd k =>
    if !m.downstreamListen && s.downstreamSocket == some k then
      some (notifyConnectState peer false
        { s with
          closed := s.closed ++ [k]
          downstreamSocket := none })
    else none
  -- connect_downstream: OSError with errno EADDRINUSE while running
  -- stops the engine.
  | .dsConnectFatal =>
    if !m.downstreamListen && s.running then
      some { s with
        running := false
        logs := s.logs ++ ["ERROR: downstream connect local port already in use"] }
    else none
  -- relay_from_upstream: an empty read publishes upstream-disconnected
  -- and returns (the socket is cleared later by the owning driver).
  | .upstreamClosedRead =>
    if s.running && s.upstreamSocket.isSome then
      some { s with
        lastUpstreamStatus := some false
        logs := s.logs ++ ["Upstream connection closed."] }
    else none
  -- handle_exit, callable at any time from a signal or the GUI.
  | .stopRequest => some (handleExit s)
  -- cleanup, run by the finally of start().
  | .doCleanup => some (cleanup peer m s)
  -- _listen_upstream_or_die: bind and listen succeed, the listener is kept.
  | .bindUpstreamListener k =>
    if m.upstreamListen && s.running && s.upstreamServerSocket == none then
      some { s with
        upstreamServerSocket := some k
        logs := s.logs ++ ["Listening for upstream connections"] }
    else none
  -- _listen_clients_or_die: bind and listen succeed, the listener is kept.
  | .bindClientListener k =>
    if m.downstreamListen && s.running && s.clientServerSocket == none then
      some { s with
        clientServerSocket := some k
        logs := s.logs ++ ["Listening for clients"] }
    else none

/-- Reachability of an engine state from the post-`start()` initial state
under the step relation, for a fixed mode and peer-address map. -/
inductive Reachable (peer : Nat → Option String) (m : Mode) : EngineState → Prop
  | init : Reachable peer m initState
  | step (s s' : EngineState) (e : Event) :
      Reachable peer m s → Step peer m s e = some s' → Reachable peer m s'

/-- errno.EADDRINUSE on Linux. -/
def EADDRINUSE : Nat := 98

/-- Outcomes of one iteration of the `connect_upstream` driver loop:
either the connect succeeded and `relay_from_upstream` ran and returned
(it never raises: its body is wrapped in a blanket handler), or an
`OSError` with the given errno was raised in the connect phase, or some
other exception was raised. -/
inductive UpIterOutcome
  | pipelineReturn
  | osError (e : Nat)
  | otherError

/-- Observable effects of one iteration of a connect driver loop.
`running` is the value of `self.running` seen by the iteration's
handlers and the following `while` test. -/
structure DriverIterResult where
  newRunning : Bool
  exitsLoop : Bool
  slept : Bool
  closedSocket : Bool
  clearedSocket : Bool
  publishedDisconnected : Bool
  loggedError : Bool
deriving DecidableEq

/-- Embedding of one iteration of the `connect_upstream` loop (lines
215-272).  The `finally` block runs on every path: it closes the local
socket when one was created, sets `self.upstream_socket = None` and
publishes upstream-disconnected.  `time.sleep(self.retry_interval)` is
executed only inside the two exception handlers, never on the
pipeline-return path. -/
def connectUpstreamIter (running : Bool) (o : UpIterOutcome) : DriverIterResult :=
  match o with
  | .pipelineReturn =>
    { newRunning := running
      exitsLoop := !running
      slept := false
      closedSocket := true
      clearedSocket := true
      publishedDisconnected := true
      loggedError := false }
  | .osError e =>
    if !running then
      { newRunning := running, exitsLoop := true, slept := false,
        closedSocket := true, clearedSocket := true,
        publishedDisconnected := true, loggedError := false }
    else if e == EADDRINUSE then
      { newRunning := false, exitsLoop := true, slept := false,
        closedSocket := true, clearedSocket := true,
        publishedDisconnected := true, loggedError := true }
    else
      { newRunning := running, exitsLoop := false, slept := true,
        closedSocket := true, clearedSocket := true,
        publishedDisconnected := true, loggedError := true }
  | .otherError =>
    if !running then
      { newRunning := running, exitsLoop := true, slept := false,
        closedSocket := true, clearedSocket := true,
        publishedDisconnected := true, loggedError := false }
    else
      { newRunning := running, exitsLoop := false, slept := true,
        closedSocket := true, clearedSocket := true,
        publishedDisconnected := true, loggedError := true }

/-- Outcomes of one iteration of the `connect_downstream` loop: the
connect succeeded and the keep-alive poll later broke (peer closed or
poll error) with `downstream_socket` still being the local socket, or an
`OSError` was raised in the connect phase, or another exception. -/
inductive DownIterOutcome
  | keepaliveEnd
  | osError (e : Nat)
  | otherError

/-- Embedding of one iteration of the `connect_downstream` loop (lines
382-456).  Unlike `connect_upstream`, the `finally` block acts only when
`self.downstream_socket is s`; on a connect-phase error the assignment
never happened, so nothing is closed, cleared or published there. -/
def connectDownstreamIter (running : Bool) (o : DownIterOutcome) : DriverIterResult :=
  match o with
  | .keepaliveEnd =>
    { newRunning := running
      exitsLoop := !running
      slept := false
      closedSocket := true
      clearedSocket := true
      publishedDisconnected := true
      loggedError := false }
  | .osError e =>
    if !running then
      { newRunning := running, exitsLoop := true, slept := false,
        closedSocket := false, clearedSocket := false,
        publishedDisconnected := false, loggedError := false }
    else if e == EADDRINUSE then
      { newRunning := false, exitsLoop := true, slept := false,
        closedSocket := false, clearedSocket := false,
        publishedDisconnected := false, loggedError := true }
    else
      { newRunning := running, exitsLoop := false, slept := true,
        closedSocket := false, clearedSocket := false,
        publishedDisconnected := false, loggedError := true }
  | .otherError =>
    if !running then
      { newRunning := running, exitsLoop := true, slept := false,
        closedSocket := false, clearedSocket := false,
        publishedDisconnected := false, loggedError := false }
    else
      { newRunning := running, exitsLoop := false, slept := true,
        closedSocket := false, clearedSocket := false,
        publishedDisconnected := false, loggedError := true }

/-- Outcome of one iteration of `_accept_upstream_loop`: either a socket
was accepted (and the pipeline ran inline and returned), or the accept
call raised. -/
inductive AcceptOutcome
  | accepted (k : Nat)
  | acceptError

/-- Observable effects of one iteration of `_accept_upstream_loop`.
`unboundLocalError` records that the `finally` block evaluated
`self.upstream_socket is sock` while the local `sock` was never assigned
in this function call, which raises `UnboundLocalError` and escapes the
`while` loop. -/
structure AcceptIterResult where
  continuesLoop : Bool
  loggedError : Bool
  unboundLocalError : Bool
  publishedUpstreamDown : Bool
deriving DecidableEq

/-- Embedding of one iteration of `_accept_upstream_loop` (lines
292-332).  `sockLocal` is the value of the Python local `sock` carried
over from earlier iterations of the same call (`none` when no accept has
ever succeeded, so the local is unbound).  On an accept error the
`except` clause logs first; the trailing `finally` then references
`sock`, which on the first iteration is unbound: the resulting
`UnboundLocalError` propagates out of the loop and terminates it, and
the upstream-disconnected publication in the `finally` is never
reached. -/
def acceptUpstreamIter (running : Bool) (sockLocal : Option Nat)
    (o : AcceptOutcome) : AcceptIterResult :=
  match o with
  | .accepted _ =>
    { continuesLoop := running
      loggedError := false
      unboundLocalError := false
      publishedUpstreamDown := true }
  | .acceptError =>
    if !running then
      match sockLocal with
      | none =>
        { continuesLoop := false, loggedError := false,
          unboundLocalError := true, publishedUpstreamDown := false }
      | some _ =>
        { continuesLoop := false, loggedError := false,
          unboundLocalError := false, publishedUpstreamDown := true }
    else
      match sockLocal with
      | none =>
        { continuesLoop := false, loggedError := true,
          unboundLocalError := true, publishedUpstreamDown := false }
      | some _ =>
        { continuesLoop := true, loggedError := true,
          unboundLocalError := false, publishedUpstreamDown := true }

/-- Strict UTF-8 decoding of a byte list, as performed by Python's
`bytes.decode("utf-8")`: rejects truncated sequences, stray continuation
bytes, overlong encodings, surrogate code points and code points above
U+10FFFF; returns the decoded code points on success and `none` (the
`UnicodeDecodeError` case) otherwise. -/
def utf8Decode : List Nat → Option (List Char)
  | [] => some []
  | b :: rest =>
    if b < 0x80 then
      match utf8Decode rest with
      | some cs => some (Char.ofNat b :: cs)
      | none => none
    else if b < 0xC2 then none
    else if b ≤ 0xDF then
      match rest with
      | c1 :: rest2 =>
        if 0x80 ≤ c1 && c1 ≤ 0xBF then
          match utf8Decode rest2 with
          | some cs => some (Char.ofNat ((b - 0xC0) * 0x40 + (c1 - 0x80)) :: cs)
          | none => none
        else none
      | _ => none
    else if b ≤ 0xEF then
      match rest with
      | c1 :: c2 :: rest2 =>
        let cp := (b - 0xE0) * 0x1000 + (c1 - 0x80) * 0x40 + (c2 - 0x80)
        if (0x80 ≤ c1 && c1 ≤ 0xBF) && (0x80 ≤ c2 && c2 ≤ 0xBF)
            && 0x800 ≤ cp && !(0xD800 ≤ cp && cp ≤ 0xDFFF) then
          match utf8Decode rest2 with
          | some cs => some (Char.ofNat cp :: cs)
          | none => none
        else none
      | _ => none
    else if b ≤ 0xF4 then
      match rest with
      | c1 :: c2 :: c3 :: rest2 =>
        let cp := (b - 0xF0) * 0x40000 + (c1 - 0x80) * 0x1000
          + (c2 - 0x80) * 0x40 + (c3 - 0x80)
        if (0x80 ≤ c1 && c1 ≤ 0xBF) && (0x80 ≤ c2 && c2 ≤ 0xBF)
            && (0x80 ≤ c3 && c3 ≤ 0xBF)
            && 0x10000 ≤ cp && cp ≤ 0x10FFFF then
          match utf8Decode rest2 with
          | some cs => some (Char.ofNat cp :: cs)
          | none => none
        else none
      | _ => none
    else none

/-- Quote character chosen by Python's `repr` on a bytes object: a
single quote, unless the data contains a single quote and no double
quote, in which case a double quote. -/
def bytesReprQuote (data : List Nat) : Nat :=
  if data.contains 39 && !data.contains 34 then 34 else 39

/-- Lowercase hexadecimal digit. -/
def hexDigit (n : Nat) : Char :=
  if n < 10 then Char.ofNat (48 + n) else Char.ofNat (87 + n)

/-- Escaping of one byte inside Python's `repr` of a bytes object: the
chosen quote and the backslash are backslash-escaped, tab, newline and
carriage return use their mnemonic escapes, printable ASCII is kept
verbatim, and everything else becomes a lowercase hex escape. -/
def byteEscape (quote : Nat) (b : Nat) : List Char :=
  if b == quote || b == 92 then [Char.ofNat 92, Char.ofNat b]
  else if b == 9 then [Char.ofNat 92, Char.ofNat 116]
  else if b == 10 then [Char.ofNat 92, Char.ofNat 110]
  else if b == 13 then [Char.ofNat 92, Char.ofNat 114]
  else if 0x20 ≤ b && b ≤ 0x7E then [Char.ofNat b]
  else [Char.ofNat 92, Char.ofNat 120, hexDigit (b / 16), hexDigit (b % 16)]

/-- Python's `repr` of a bytes object: prefix `b`, the chosen quote, the
escaped bytes, the closing quote. -/
def bytesRepr (data : List Nat) : String :=
  let q := bytesReprQuote data
  String.mk (Char.ofNat 98 :: Char.ofNat q ::
    ((data.map (byteEscape q)).flatten ++ [Char.ofNat q]))

/-- Embedding of the dump rendering in `relay_from_upstream` (lines
484-489): `data.decode("utf-8")` when the bytes are valid UTF-8,
`repr(data)` on `UnicodeDecodeError`. -/
def renderDump (data : List Nat) : String :=
  match utf8Decode data with
  | some cs => String.mk cs
  | none => bytesRepr data

/-- Where a dump line was delivered. -/
structure DumpOut where
  toCallback : Option String
  toStdout : Option String
deriving DecidableEq

/-- Embedding of `_log_dump` (lines 63-75): when a log callback is
installed the text goes only to the callback; otherwise it goes only to
stdout. -/
def logDump (onLogInstalled : Bool) (text : String) : DumpOut :=
  if onLogInstalled then { toCallback := some text, toStdout := none }
  else { toCallback := none, toStdout := some text }

/-- Embedding of the dump step for one received buffer: nothing is
emitted when the dump flag is off; otherwise the rendering of the buffer
is handed to `_log_dump`. -/
def dumpStep (dumpFlag : Bool) (onLogInstalled : Bool) (data : List Nat) : DumpOut :=
  if dumpFlag then logDump onLogInstalled (renderDump data)
  else { toCallback := none, toStdout := none }

/-- A peer-address environment where every lookup raises. -/
def peer0 : Nat → Option String := fun _ => none

/-- A peer-address environment where every lookup succeeds. -/
def cexPeer : Nat → Option String := fun _ => some "127.0.0.1:9001"

/-- The state reached in mode connect-connect after one successful
downstream connect (socket 7). -/
def cexState : EngineState :=
  (Step cexPeer Mode.connectConnect initState (Event.dsConnected 7)).getD initState

/-- The state reached in mode connect-listen after one accepted
downstream client (socket 5). -/
def listenStepState : EngineState :=
  (Step cexPeer Mode.connectListen initState (Event.clientAccepted 5)).getD initState

/-- A send-failure environment where exactly socket 2 fails. -/
def sampleFail : Nat → Bool := fun s => s == 2

/-- A peer-address environment where only socket 1 has a resolvable
peer address. -/
def samplePeer : Nat → Option String :=
  fun s => if s == 1 then some "10.0.0.1:5" else none

/-- A pre-teardown state owning two clients, four sockets and both
listeners. -/
def sampleDirty : EngineState :=
  { initState with
    running := false
    clientSockets := [1, 2]
    upstreamSocket := some 3
    downstreamSocket := some 4
    upstreamServerSocket := some 5
    clientServerSocket := some 6 }

/-- A state holding two registered clients. -/
def sampleTwo : EngineState := { initState with clientSockets := [1, 2] }

/-- The invariant of the client-count callback in downstream-listen
modes: the most recent published count is the current registry size, and
no count has been published only while the registry is empty. -/
def CountInv (m : Mode) (s : EngineState) : Prop :=
  m.downstreamListen = true →
    (s.lastClientCount = none → s.clientSockets = []) ∧
    ∀ n, s.lastClientCount = some n → n = s.clientSockets.length

/-- The mode-shape invariant: listen-kind downstream never holds
`downstream_socket`; connect-kind downstream never holds clients. -/
def ShapeInv (m : Mode) (s : EngineState) : Prop :=
  (m.downstreamListen = true → s.downstreamSocket = none) ∧
  (m.downstreamListen = false → s.clientSockets = [])

@[simp] theorem notifyListenState_clientSockets (peer : Nat → Option String)
    (s : EngineState) : (notifyListenState peer s).clientSockets = s.clientSockets := rfl

@[simp] theorem notifyListenState_lastClientCount (peer : Nat → Option String)
    (s : EngineState) :
    (notifyListenState peer s).lastClientCount = some s.clientSockets.length := rfl

@[simp] theorem notifyListenState_lastClientList (peer : Nat → Option String)
    (s : EngineState) :
    (notifyListenState peer s).lastClientList
      = some (s.clientSockets.filterMap peer) := rfl

@[simp] theorem notifyListenState_lastDownstreamStatus (peer : Nat → Option String)
    (s : EngineState) :
    (notifyListenState peer s).lastDownstreamStatus
      = some (decide (0 < s.clientSockets.length)) := rfl

@[simp] theorem notifyListenState_downstreamSocket (peer : Nat → Option String)
    (s : EngineState) :
    (notifyListenState peer s).downstreamSocket = s.downstreamSocket := rfl

@[simp] theorem notifyListenState_upstreamSocket (peer : Nat → Option String)
    (s : EngineState) :
    (notifyListenState peer s).upstreamSocket = s.upstreamSocket := rfl

@[simp] theorem notifyListenState_cleaned (peer : Nat → Option String)
    (s : EngineState) : (notifyListenState peer s).cleaned = s.cleaned := rfl

@[simp] theorem notifyListenState_closed (peer : Nat → Option String)
    (s : EngineState) : (notifyListenState peer s).closed = s.closed := rfl

@[simp] theorem notifyListenState_running (peer : Nat → Option String)
    (s : EngineState) : (notifyListenState peer s).running = s.running := rfl

@[simp] theorem notifyListenState_lastUpstreamStatus (peer : Nat → Option String)
    (s : EngineState) :
    (notifyListenState peer s).lastUpstreamStatus = s.lastUpstreamStatus := rfl

@[simp] theorem notifyConnectState_clientSockets (peer : Nat → Option String)
    (c : Bool) (s : EngineState) :
    (notifyConnectState peer c s).clientSockets = s.clientSockets := rfl

@[simp] theorem notifyConnectState_downstreamSocket (peer : Nat → Option String)
    (c : Bool) (s : EngineState) :
    (notifyConnectState peer c s).downstreamSocket = s.downstreamSocket := rfl

@[simp] theorem notifyConnectState_upstreamSocket (peer : Nat → Option String)
    (c : Bool) (s : EngineState) :
    (notifyConnectState peer c s).upstreamSocket = s.upstreamSocket := rfl

@[simp] theorem notifyConnectState_cleaned (peer : Nat → Option String)
    (c : Bool) (s : EngineState) :
    (notifyConnectState peer c s).cleaned = s.cleaned := rfl

@[simp] theorem notifyConnectState_closed (peer : Nat → Option String)
    (c : Bool) (s : EngineState) :
    (notifyConnectState peer c s).closed = s.closed := rfl

@[simp] theorem notifyConnectState_running (peer : Nat → Option String)
    (c : Bool) (s : EngineState) :
    (notifyConnectState peer c s).running = s.running := rfl

@[simp] theorem notifyConnectState_lastClientCount (peer : Nat → Option String)
    (c : Bool) (s : EngineState) :
    (notifyConnectState peer c s).lastClientCount
      = some (if c then 1 else 0) := rfl

@[simp] theorem notifyConnectState_lastDownstreamStatus (peer : Nat → Option String)
    (c : Bool) (s : EngineState) :
    (notifyConnectState peer c s).lastDownstreamStatus = some c := rfl

@[simp] theorem notifyConnectState_lastUpstreamStatus (peer : Nat → Option String)
    (c : Bool) (s : EngineState) :
    (notifyConnectState peer c s).lastUpstreamStatus = s.lastUpstreamStatus := rfl

@[simp] theorem notifyConnectState_false_lastClientList (peer : Nat → Option String)
    (s : EngineState) :
    (notifyConnectState peer false s).lastClientList = some [] := rfl

theorem sendLoop_go (f : Nat → Bool) (l acc1 acc2 : List Nat) :
    l.foldl (fun acc s => (acc.1 ++ [s], if f s then acc.2 ++ [s] else acc.2))
      (acc1, acc2) = (acc1 ++ l, acc2 ++ l.filter f) := by
  induction l generalizing acc1 acc2 with
  | nil => simp
  | cons a t ih =>
    cases hfa : f a <;>
      simp [List.foldl_cons, hfa, ih, List.filter_cons]

theorem sendLoop_eq (targets : List Nat) (f : Nat → Bool) :
    sendLoop targets f = (targets, targets.filter f) := by
  simpa [sendLoop] using sendLoop_go f targets [] []

theorem foldl_erase_cons_of_not_mem (a : Nat) :
    ∀ (ds : List Nat), a ∉ ds → ∀ (t : List Nat),
      ds.foldl (fun cs s => cs.erase s) (a :: t)
        = a :: ds.foldl (fun cs s => cs.erase s) t := by
  intro ds
  induction ds with
  | nil => intro _ t; rfl
  | cons d ds ih =>
    intro h t
    have h1 : a ≠ d := fun he => h (by simp [he])
    have h2 : a ∉ ds := fun hm => h (List.mem_cons_of_mem _ hm)
    simp only [List.foldl_cons]
    rw [List.erase_cons_tail (by simpa using h1)]
    exact ih h2 (t.erase d)

theorem foldl_erase_filter (p : Nat → Bool) :
    ∀ (l : List Nat), l.Nodup →
      (l.filter p).foldl (fun cs s => cs.erase s) l
        = l.filter (fun x => !p x) := by
  intro l
  induction l with
  | nil => intro _; rfl
  | cons a t ih =>
    intro hnd
    obtain ⟨hat, hnt⟩ := List.nodup_cons.mp hnd
    cases hpa : p a with
    | true =>
      rw [List.filter_cons]
      simp only [hpa, if_true, List.foldl_cons, List.erase_cons_head]
      rw [ih hnt]
      simp [List.filter_cons, hpa]
    | false =>
      have hnm : a ∉ t.filter p := fun hm => hat (List.mem_of_mem_filter hm)
      rw [List.filter_cons]
      simp only [hpa, Bool.false_eq_true, if_false]
      rw [foldl_erase_cons_of_not_mem a (t.filter p) hnm t, ih hnt]
      simp [List.filter_cons, hpa]

theorem fanoutBuffer_not_published (c : List Nat) (f : Nat → Bool)
    (h : (fanoutBuffer c f).published = false) :
    (fanoutBuffer c f).clientsAfter = c := by
  have hd : c.filter f = [] := by
    have h2 : (!(sendLoop c f).2.isEmpty) = false := h
    rw [sendLoop_eq] at h2
    simpa [List.isEmpty_iff] using h2
  show ((sendLoop c f).2).foldl (fun cs s => cs.erase s) c = c
  rw [sendLoop_eq]
  simp [hd]

theorem length_filterMap_lt (f : Nat → Option String) :
    ∀ (l : List Nat), (∃ c ∈ l, f c = none) →
      (l.filterMap f).length < l.length := by
  intro l
  induction l with
  | nil => rintro ⟨c, hc, _⟩; cases hc
  | cons a t ih =>
    rintro ⟨c, hc, hfc⟩
    rcases List.mem_cons.mp hc with rfl | hct
    · rw [List.filterMap_cons_none hfc]
      exact Nat.lt_succ_of_le (List.length_filterMap_le f t)
    · cases hfa : f a with
      | none =>
        rw [List.filterMap_cons_none hfa]
        exact Nat.lt_succ_of_le (List.length_filterMap_le f t)
      | some b =>
        rw [List.filterMap_cons_some hfa]
        exact Nat.succ_lt_succ (ih ⟨c, hct, hfc⟩)

theorem step_inv (peer : Nat → Option String) (m : Mode) (s s' : EngineState)
    (e : Event) (hstep : Step peer m s e = some s')
    (hc : CountInv m s) (hs : ShapeInv m s) : CountInv m s' ∧ ShapeInv m s' := by
  cases e with
  | upConnected k =>
    simp only [Step] at hstep
    split at hstep
    · simp only [Option.some.injEq] at hstep
      subst hstep
      exact ⟨hc, hs⟩
    · exact Option.noConfusion hstep
  | upConnectEnd =>
    simp only [Step] at hstep
    split at hstep
    · simp only [Option.some.injEq] at hstep
      subst hstep
      exact ⟨hc, hs⟩
    · exact Option.noConfusion hstep
  | upConnectFatal =>
    simp only [Step] at hstep
    split at hstep
    · simp only [Option.some.injEq] at hstep
      subst hstep
      exact ⟨hc, hs⟩
    · exact Option.noConfusion hstep
  | upAccepted k =>
    simp only [Step] at hstep
    split at hstep
    · simp only [Option.some.injEq] at hstep
      subst hstep
      exact ⟨hc, hs⟩
    · exact Option.noConfusion hstep
  | upAcceptEnd k =>
    simp only [Step] at hstep
    split at hstep
    · simp only [Option.some.injEq] at hstep
      subst hstep
      exact ⟨hc, hs⟩
    · exact Option.noConfusion hstep
  | clientAccepted k =>
    simp only [Step] at hstep
    split at hstep
    case isTrue hg =>
      simp only [Option.some.injEq] at hstep
      subst hstep
      have hdl : m.downstreamListen = true := by
        simp only [Bool.and_eq_true] at hg
        exact hg.1
      refine ⟨fun _ => ⟨fun hn => ?_, fun n hn => ?_⟩, fun hdt => ?_, fun hdf => ?_⟩
      · simp at hn
      · simp at hn ⊢
        omega
      · simpa using hs.1 hdt
      · rw [hdf] at hdl
        exact Bool.noConfusion hdl
    case isFalse => exact Option.noConfusion hstep
  | fanoutSend f =>
    simp only [Step] at hstep
    split at hstep
    case isTrue hg =>
      simp only [Option.some.injEq] at hstep
      subst hstep
      have hdl : m.downstreamListen = true := by
        simp only [Bool.and_eq_true] at hg
        exact hg.1.1
      cases hpub : (fanoutBuffer s.clientSockets f).published with
      | true =>
        simp only [hpub, if_true]
        refine ⟨fun _ => ⟨fun hn => ?_, fun n hn => ?_⟩, fun hdt => ?_, fun hdf => ?_⟩
        · simp at hn
        · simp at hn ⊢
          exact hn.symm
        · simpa using hs.1 hdt
        · rw [hdf] at hdl
          exact Bool.noConfusion hdl
      | false =>
        simp only [hpub, Bool.false_eq_true, if_false]
        have hca := fanoutBuffer_not_published s.clientSockets f hpub
        refine ⟨fun _ => ⟨fun hn => ?_, fun n hn => ?_⟩, fun hdt => ?_, fun hdf => ?_⟩
        · simp only [hca]
          exact (hc hdl).1 hn
        · simp only [hca]
          exact (hc hdl).2 n hn
        · simpa using hs.1 hdt
        · rw [hdf] at hdl
          exact Bool.noConfusion hdl
    case isFalse => exact Option.noConfusion hstep
  | p2pSendFail =>
    simp only [Step] at hstep
    split at hstep
    case isTrue hg =>
      simp only [Option.some.injEq] at hstep
      subst hstep
      have hdl2 : m.downstreamListen = false := by
        simp only [Bool.and_eq_true] at hg
        simpa using hg.1.1
      refine ⟨fun hdt => ?_, fun hdt => ?_, fun _ => ?_⟩
      · rw [hdt] at hdl2
        exact Bool.noConfusion hdl2
      · rw [hdt] at hdl2
        exact Bool.noConfusion hdl2
      · simpa using hs.2 hdl2
    case isFalse => exact Option.noConfusion hstep
  | dsConnected k =>
    simp only [Step] at hstep
    split at hstep
    case isTrue hg =>
      simp only [Option.some.injEq] at hstep
      subst hstep
      have hdl2 : m.downstreamListen = false := by
        simp only [Bool.and_eq_true] at hg
        simpa using hg.1
      refine ⟨fun hdt => ?_, fun hdt => ?_, fun _ => ?_⟩
      · rw [hdt] at hdl2
        exact Bool.noConfusion hdl2
      · rw [hdt] at hdl2
        exact Bool.noConfusion hdl2
      · simpa using hs.2 hdl2
    case isFalse => exact Option.noConfusion hstep
  | dsConnectEnd k =>
    simp only [Step] at hstep
    split at hstep
    case isTrue hg =>
      simp only [Option.some.injEq] at hstep
      subst hstep
      have hdl2 : m.downstreamListen = false := by
        simp only [Bool.and_eq_true] at hg
        simpa using hg.1
      refine ⟨fun hdt => ?_, fun hdt => ?_, fun _ => ?_⟩
      · rw [hdt] at hdl2
        exact Bool.noConfusion hdl2
      · rw [hdt] at hdl2
        exact Bool.noConfusion hdl2
      · simpa using hs.2 hdl2
    case isFalse => exact Option.noConfusion hstep
  | dsConnectFatal =>
    simp only [Step] at hstep
    split at hstep
    · simp only [Option.some.injEq] at hstep
      subst hstep
      exact ⟨hc, hs⟩
    · exact Option.noConfusion hstep
  | upstreamClosedRead =>
    simp only [Step] at hstep
    split at hstep
    · simp only [Option.some.injEq] at hstep
      subst hstep
      exact ⟨hc, hs⟩
    · exact Option.noConfusion hstep
  | stopRequest =>
    simp only [Step, Option.some.injEq] at hstep
    subst hstep
    exact ⟨hc, hs⟩
  | doCleanup =>
    simp only [Step, Option.some.injEq] at hstep
    subst hstep
    by_cases hcl : s.cleaned
    · simp only [cleanup, hcl, if_true]
      exact ⟨hc, hs⟩
    · cases hdl : m.downstreamListen with
      | true =>
        simp only [cleanup, hcl, if_false, hdl, if_true]
        refine ⟨fun _ => ⟨fun hn => ?_, fun n hn => ?_⟩, fun hdt => ?_, fun hdf => ?_⟩
        · simp at hn
        · simp at hn ⊢
          omega
        · simpa using hs.1 hdt
        · rw [hdf] at hdl
          exact Bool.noConfusion hdl
      | false =>
        simp only [cleanup, hcl, if_false, hdl, Bool.false_eq_true]
        refine ⟨fun hdt => ?_, fun hdt => ?_, fun _ => ?_⟩
        · rw [hdt] at hdl
          exact Bool.noConfusion hdl
        · rw [hdt] at hdl
          exact Bool.noConfusion hdl
        · simp
  | bindUpstreamListener k =>
    simp only [Step] at hstep
    split at hstep
    · simp only [Option.some.injEq] at hstep
      subst hstep
      exact ⟨hc, hs⟩
    · exact Option.noConfusion hstep
  | bindClientListener k =>
    simp only [Step] at hstep
    split at hstep
    · simp only [Option.some.injEq] at hstep
      subst hstep
      exact ⟨hc, hs⟩
    · exact Option.noConfusion hstep

theorem reachable_inv (peer : Nat → Option String) (m : Mode) (s : EngineState)
    (h : Reachable peer m s) : CountInv m s ∧ ShapeInv m s := by
  induction h with
  | init =>
    refine ⟨fun _ => ⟨fun _ => rfl, fun n hn => ?_⟩, fun _ => rfl, fun _ => rfl⟩
    exact Option.noConfusion hn
  | step s s' e _ hstep ih =>
    exact step_inv peer m s s' e hstep ih.1 ih.2

/-- C1: for every non-empty buffer in a downstream-listen mode,
`relay_from_upstream` attempts `sendall` on every member of the client
snapshot, collects exactly the members whose send raised, removes each
failing member from the registry (first occurrence, prior removal
tolerated) and closes it, and publishes the downstream state if and only
if at least one send failed; one client's failure never suppresses the
attempt on any other snapshot member. -/
theorem relay_fanout_correct (clients : List Nat) (sendFails : Nat → Bool)
    (h : clients.Nodup) :
    (fanoutBuffer clients sendFails).attempted = clients ∧
    (fanoutBuffer clients sendFails).dead = clients.filter sendFails ∧
    (fanoutBuffer clients sendFails).clientsAfter
      = clients.filter (fun x => !sendFails x) ∧
    (fanoutBuffer clients sendFails).closedNow = clients.filter sendFails ∧
    ((fanoutBuffer clients sendFails).published = true
      ↔ clients.filter sendFails ≠ []) := by
  have hsl := sendLoop_eq clients sendFails
  refine ⟨?_, ?_, ?_, ?_, ?_⟩
  · show (sendLoop clients sendFails).1 = clients
    rw [hsl]
  · show (sendLoop clients sendFails).2 = clients.filter sendFails
    rw [hsl]
  · show ((sendLoop clients sendFails).2).foldl (fun cs s => cs.erase s) clients = _
    rw [hsl]
    exact foldl_erase_filter sendFails clients h
  · show (sendLoop clients sendFails).2 = clients.filter sendFails
    rw [hsl]
  · show (!((sendLoop clients sendFails).2).isEmpty) = true ↔ _
    rw [hsl]
    simp [List.isEmpty_iff]

/-- Witness for C1 at a concrete registry and failure set: of the three
clients 1, 2, 3 only client 2 fails; all three are attempted, exactly 2
is collected, removed and closed, and the state is published. -/
theorem relay_fanout_correct_witness :
    List.Nodup [1, 2, 3] ∧
    ((fanoutBuffer [1, 2, 3] sampleFail).attempted = [1, 2, 3] ∧
     (fanoutBuffer [1, 2, 3] sampleFail).dead = [1, 2, 3].filter sampleFail ∧
     (fanoutBuffer [1, 2, 3] sampleFail).clientsAfter
       = [1, 2, 3].filter (fun x => !sampleFail x) ∧
     (fanoutBuffer [1, 2, 3] sampleFail).closedNow = [1, 2, 3].filter sampleFail ∧
     ((fanoutBuffer [1, 2, 3] sampleFail).published = true
       ↔ [1, 2, 3].filter sampleFail ≠ [])) :=
  ⟨by decide, relay_fanout_correct [1, 2, 3] sampleFail (by decide)⟩

/-- C2 counterexample: in mode connect-connect the state reached by one
successful downstream connect is reachable, its registry is empty, yet
the most recent client-count callback argument is 1, so the count does
not equal the registry size in all four modes. -/
theorem connect_mode_count_mismatch :
    Reachable cexPeer Mode.connectConnect cexState ∧
    cexState.clientSockets.length = 0 ∧
    cexState.lastClientCount = some 1 ∧
    ¬cexState.lastClientCount = some cexState.clientSockets.length :=
  ⟨Reachable.step initState cexState (Event.dsConnected 7) Reachable.init (by rfl),
   rfl, rfl, by decide⟩

/-- C2 amended: in the downstream-listen modes, in every reachable state
of the step relation the most recent client-count callback argument
equals the registry size, and no count has been published only while the
registry is empty; in the downstream-connect modes the callback instead
reports downstream connectivity while the registry stays empty. -/
theorem clients_count_tracks_last_callback (peer : Nat → Option String)
    (m : Mode) (s : EngineState) (hr : Reachable peer m s)
    (hm : m.downstreamListen = true) :
    (s.lastClientCount = none → s.clientSockets = []) ∧
    ∀ n, s.lastClientCount = some n → n = s.clientSockets.length :=
  (reachable_inv peer m s hr).1 hm

/-- Witness for C2 at the state reached in mode connect-listen by one
accepted client. -/
theorem clients_count_tracks_last_callback_witness :
    (listenStepState.lastClientCount = none → listenStepState.clientSockets = []) ∧
    ∀ n, listenStepState.lastClientCount = some n
      → n = listenStepState.clientSockets.length :=
  clients_count_tracks_last_callback cexPeer Mode.connectListen listenStepState
    (Reachable.step initState listenStepState (Event.clientAccepted 5)
      Reachable.init (by rfl)) rfl

/-- C3 counterexample: in `connect_upstream`, when the pipeline returns
while running is still true, the driver does publish
upstream-disconnected and close and clear the socket, but it does not
sleep for the reconnect interval: the sleep is only in the exception
handlers, so the next connection attempt starts immediately. -/
theorem pipeline_return_no_sleep :
    (connectUpstreamIter true UpIterOutcome.pipelineReturn).publishedDisconnected
      = true ∧
    (connectUpstreamIter true UpIterOutcome.pipelineReturn).closedSocket = true ∧
    (connectUpstreamIter true UpIterOutcome.pipelineReturn).clearedSocket = true ∧
    ¬(connectUpstreamIter true UpIterOutcome.pipelineReturn).slept = true :=
  ⟨rfl, rfl, rfl, by decide⟩

/-- C3 amended: whenever the pipeline returns and running is still true,
`connect_upstream` publishes upstream-disconnected, closes and clears
`upstream_sock`, and immediately proceeds to the next connection attempt
without sleeping; the reconnect-interval sleep happens only in the
handlers of connect-phase errors. -/
theorem pipeline_return_immediate_retry :
    connectUpstreamIter true UpIterOutcome.pipelineReturn =
      { newRunning := true, exitsLoop := false, slept := false,
        closedSocket := true, clearedSocket := true,
        publishedDisconnected := true, loggedError := false } := rfl

/-- C5: evaluation of the upstream accept loop at the failing input.  On
the very first iteration, an accept error while running is true is
logged, but the `finally` block then references the never-assigned local
`sock`, raising `UnboundLocalError`, which terminates the loop; only
after a successful accept has bound the local does a later accept error
log and continue the loop as the claim states. -/
theorem accept_loop_first_error_terminates :
    acceptUpstreamIter true none AcceptOutcome.acceptError =
      { continuesLoop := false, loggedError := true,
        unboundLocalError := true, publishedUpstreamDown := false } ∧
    acceptUpstreamIter true (some 3) AcceptOutcome.acceptError =
      { continuesLoop := true, loggedError := true,
        unboundLocalError := false, publishedUpstreamDown := true } :=
  ⟨rfl, rfl⟩

/-- C6: in both connect drivers, an OSError with errno EADDRINUSE while
running is logged, sets running to false and exits the loop without
sleeping; every other OSError while running is logged and retried after
the reconnect-interval sleep. -/
theorem eaddrinuse_fatal_transient_retry :
    (connectUpstreamIter true (UpIterOutcome.osError EADDRINUSE) =
      { newRunning := false, exitsLoop := true, slept := false,
        closedSocket := true, clearedSocket := true,
        publishedDisconnected := true, loggedError := true } ∧
     connectDownstreamIter true (DownIterOutcome.osError EADDRINUSE) =
      { newRunning := false, exitsLoop := true, slept := false,
        closedSocket := false, clearedSocket := false,
        publishedDisconnected := false, loggedError := true }) ∧
    ∀ e, e ≠ EADDRINUSE →
      (connectUpstreamIter true (UpIterOutcome.osError e) =
        { newRunning := true, exitsLoop := false, slept := true,
          closedSocket := true, clearedSocket := true,
          publishedDisconnected := true, loggedError := true } ∧
       connectDownstreamIter true (DownIterOutcome.osError e) =
        { newRunning := true, exitsLoop := false, slept := true,
          closedSocket := false, clearedSocket := false,
          publishedDisconnected := false, loggedError := true }) := by
  refine ⟨⟨rfl, rfl⟩, fun e he => ?_⟩
  have hbe : (e == EADDRINUSE) = false := by simpa using he
  constructor
  · simp [connectUpstreamIter, hbe]
  · simp [connectDownstreamIter, hbe]

/-- Witness for C6 at errno 111 (ECONNREFUSED): not EADDRINUSE, so both
drivers log and sleep for the retry interval. -/
theorem eaddrinuse_fatal_transient_retry_witness :
    (111 : Nat) ≠ EADDRINUSE ∧
    (connectUpstreamIter true (UpIterOutcome.osError 111) =
      { newRunning := true, exitsLoop := false, slept := true,
        closedSocket := true, clearedSocket := true,
        publishedDisconnected := true, loggedError := true } ∧
     connectDownstreamIter true (DownIterOutcome.osError 111) =
      { newRunning := true, exitsLoop := false, slept := true,
        closedSocket := false, clearedSocket := false,
        publishedDisconnected := false, loggedError := true }) :=
  ⟨by decide, eaddrinuse_fatal_transient_retry.2 111 (by decide)⟩

/-- C8: in every reachable state, in downstream-listen modes
`downstream_sock` is absent, and in downstream-connect modes the client
registry is empty. -/
theorem mode_shape_invariant (peer : Nat → Option String) (m : Mode)
    (s : EngineState) (hr : Reachable peer m s) :
    (m.downstreamListen = true → s.downstreamSocket = none) ∧
    (m.downstreamListen = false → s.clientSockets = []) :=
  (reachable_inv peer m s hr).2

/-- Witness for C8 at the initial state in mode connect-listen. -/
theorem mode_shape_invariant_witness :
    (Mode.connectListen.downstreamListen = true
      → initState.downstreamSocket = none) ∧
    (Mode.connectListen.downstreamListen = false
      → initState.clientSockets = []) :=
  mode_shape_invariant peer0 Mode.connectListen initState Reachable.init

/-- C9: `handle_exit` sets running to false and appends one log line,
and leaves every other component of the engine state unchanged: no
socket is closed, and the two stream sockets, the registry, both
listeners and the cleaned-once guard keep their values. -/
theorem handle_exit_frame (s : EngineState) :
    (handleExit s).running = false ∧
    (handleExit s).logs
      = s.logs ++ ["Shutting down relay server (handle_exit)..."] ∧
    (handleExit s).upstreamSocket = s.upstreamSocket ∧
    (handleExit s).downstreamSocket = s.downstreamSocket ∧
    (handleExit s).clientSockets = s.clientSockets ∧
    (handleExit s).upstreamServerSocket = s.upstreamServerSocket ∧
    (handleExit s).clientServerSocket = s.clientServerSocket ∧
    (handleExit s).cleaned = s.cleaned ∧
    (handleExit s).closed = s.closed ∧
    (handleExit s).lastUpstreamStatus = s.lastUpstreamStatus ∧
    (handleExit s).lastDownstreamStatus = s.lastDownstreamStatus ∧
    (handleExit s).lastClientCount = s.lastClientCount ∧
    (handleExit s).lastClientList = s.lastClientList :=
  ⟨rfl, rfl, rfl, rfl, rfl, rfl, rfl, rfl, rfl, rfl, rfl, rfl, rfl⟩

/-- C4: `cleanup` is idempotent (a second call returns at the guard with
no effect on state, sockets or callbacks), and after its first
completion the client registry is empty, every owned socket (clients,
upstream, downstream and both listeners) has been closed, and the final
published statuses are upstream-disconnected plus a downstream snapshot
of zero clients, empty list and disconnected. -/
theorem cleanup_idempotent_final (peer : Nat → Option String) (m : Mode)
    (s : EngineState) (h : s.cleaned = false) :
    cleanup peer m (cleanup peer m s) = cleanup peer m s ∧
    (cleanup peer m s).clientSockets = [] ∧
    (cleanup peer m s).cleaned = true ∧
    (∀ x, x ∈ s.clientSockets → x ∈ (cleanup peer m s).closed) ∧
    (∀ x, s.upstreamSocket = some x → x ∈ (cleanup peer m s).closed) ∧
    (∀ x, s.downstreamSocket = some x → x ∈ (cleanup peer m s).closed) ∧
    (∀ x, s.upstreamServerSocket = some x → x ∈ (cleanup peer m s).closed) ∧
    (∀ x, s.clientServerSocket = some x → x ∈ (cleanup peer m s).closed) ∧
    (cleanup peer m s).lastUpstreamStatus = some false ∧
    (cleanup peer m s).lastDownstreamStatus = some false ∧
    (cleanup peer m s).lastClientCount = some 0 ∧
    (cleanup peer m s).lastClientList = some [] := by
  have hcl : (cleanup peer m s).cleaned = true := by
    cases hm : m.downstreamListen <;> simp [cleanup, h, hm]
  have hidem : cleanup peer m (cleanup peer m s) = cleanup peer m s := by
    conv_lhs => rw [cleanup]
    simp [hcl]
  refine ⟨hidem, ?_, hcl, ?_, ?_, ?_, ?_, ?_, ?_, ?_, ?_, ?_⟩
  · cases hm : m.downstreamListen <;> simp [cleanup, h, hm]
  · intro x hx
    cases hm : m.downstreamListen <;> simp [cleanup, h, hm, hx]
  · intro x hx
    cases hm : m.downstreamListen <;> simp [cleanup, h, hm, hx]
  · intro x hx
    cases hm : m.downstreamListen <;> simp [cleanup, h, hm, hx]
  · intro x hx
    cases hm : m.downstreamListen <;> simp [cleanup, h, hm, hx]
  · intro x hx
    cases hm : m.downstreamListen <;> simp [cleanup, h, hm, hx]
  · cases hm : m.downstreamListen <;> simp [cleanup, h, hm]
  · cases hm : m.downstreamListen <;> simp [cleanup, h, hm]
  · cases hm : m.downstreamListen <;> simp [cleanup, h, hm]
  · cases hm : m.downstreamListen <;> simp [cleanup, h, hm]

/-- Witness for C4 at a state owning two clients, both stream sockets
and both listeners, in mode connect-listen. -/
theorem cleanup_idempotent_final_witness :
    sampleDirty.cleaned = false ∧
    (cleanup peer0 Mode.connectListen (cleanup peer0 Mode.connectListen sampleDirty)
        = cleanup peer0 Mode.connectListen sampleDirty ∧
     (cleanup peer0 Mode.connectListen sampleDirty).clientSockets = [] ∧
     (cleanup peer0 Mode.connectListen sampleDirty).cleaned = true ∧
     (∀ x, x ∈ sampleDirty.clientSockets
        → x ∈ (cleanup peer0 Mode.connectListen sampleDirty).closed) ∧
     (∀ x, sampleDirty.upstreamSocket = some x
        → x ∈ (cleanup peer0 Mode.connectListen sampleDirty).closed) ∧
     (∀ x, sampleDirty.downstreamSocket = some x
        → x ∈ (cleanup peer0 Mode.connectListen sampleDirty).closed) ∧
     (∀ x, sampleDirty.upstreamServerSocket = some x
        → x ∈ (cleanup peer0 Mode.connectListen sampleDirty).closed) ∧
     (∀ x, sampleDirty.clientServerSocket = some x
        → x ∈ (cleanup peer0 Mode.connectListen sampleDirty).closed) ∧
     (cleanup peer0 Mode.connectListen sampleDirty).lastUpstreamStatus
        = some false ∧
     (cleanup peer0 Mode.connectListen sampleDirty).lastDownstreamStatus
        = some false ∧
     (cleanup peer0 Mode.connectListen sampleDirty).lastClientCount = some 0 ∧
     (cleanup peer0 Mode.connectListen sampleDirty).lastClientList = some []) :=
  ⟨rfl, cleanup_idempotent_final peer0 Mode.connectListen sampleDirty rfl⟩

/-- C7: with the dump flag set, a non-empty buffer is rendered as its
UTF-8 decoding when the bytes are valid UTF-8 and as Python's escaped
byte-literal `repr` otherwise, and the rendering is delivered only
through the log callback when one is installed and only to stdout when
none is installed. -/
theorem dump_render_routing (onLogInstalled : Bool) (data : List Nat)
    (_h : data ≠ []) :
    (∀ cs, utf8Decode data = some cs →
      dumpStep true onLogInstalled data = logDump onLogInstalled (String.mk cs)) ∧
    (utf8Decode data = none →
      dumpStep true onLogInstalled data
        = logDump onLogInstalled (bytesRepr data)) ∧
    (onLogInstalled = true →
      (dumpStep true onLogInstalled data).toCallback = some (renderDump data) ∧
      (dumpStep true onLogInstalled data).toStdout = none) ∧
    (onLogInstalled = false →
      (dumpStep true onLogInstalled data).toStdout = some (renderDump data) ∧
      (dumpStep true onLogInstalled data).toCallback = none) := by
  refine ⟨fun cs hcs => ?_, fun hn => ?_, fun ho => ?_, fun ho => ?_⟩
  · simp [dumpStep, renderDump, hcs]
  · simp [dumpStep, renderDump, hn]
  · subst ho
    simp [dumpStep, logDump]
  · subst ho
    simp [dumpStep, logDump]

/-- Witness for C7 on the non-empty buffer "hi" with a log callback
installed: the rendering goes to the callback only. -/
theorem dump_render_routing_witness :
    ([104, 105] : List Nat) ≠ [] ∧
    ((dumpStep true true [104, 105]).toCallback = some (renderDump [104, 105]) ∧
     (dumpStep true true [104, 105]).toStdout = none) :=
  ⟨by decide, (dump_render_routing true [104, 105] (by decide)).2.2.1 rfl⟩

/-- C10: a downstream-listen state notification hands the client-count
callback the full length of the registry while the client-list callback
receives only the addresses whose lookup succeeds, so the published list
is strictly shorter than the published count whenever some registered
socket has no resolvable peer address. -/
theorem notify_listen_count_vs_list (peer : Nat → Option String)
    (s : EngineState) :
    (notifyListenState peer s).lastClientCount = some s.clientSockets.length ∧
    (notifyListenState peer s).lastClientList
      = some (s.clientSockets.filterMap peer) ∧
    ((∃ c ∈ s.clientSockets, peer c = none) →
      (s.clientSockets.filterMap peer).length < s.clientSockets.length) :=
  ⟨rfl, rfl, fun hx => length_filterMap_lt peer s.clientSockets hx⟩

/-- Witness for C10 at a registry of two sockets of which only socket 1
has a resolvable peer address: the published list is shorter than the
published count. -/
theorem notify_listen_count_vs_list_witness :
    (∃ c ∈ sampleTwo.clientSockets, samplePeer c = none) ∧
    (sampleTwo.clientSockets.filterMap samplePeer).length
      < sampleTwo.clientSockets.length :=
  have hx : ∃ c ∈ sampleTwo.clientSockets, samplePeer c = none :=
    ⟨2, by decide, by decide⟩
  ⟨hx, (notify_listen_count_vs_list samplePeer sampleTwo).2.2 hx⟩
